import Mathlib

/-!
Verification development for the bibxml-service query/index layer
(src/main/indexed.py) and the xml2rfc serializer (src/xml2rfc_compat).

The Python code is shallowly embedded: the Django record store is a list of
records, Django Q predicates are Boolean predicates on records, and Python
exceptions are an explicit error type returned through Except.
-/

namespace Bibxml

/-- JSON documents, as stored in the jsonb `body` column of api_ref_data. -/
inductive Json where
  | null : Json
  | bool : Bool → Json
  | num : Int → Json
  | str : String → Json
  | arr : List Json → Json
  | obj : List (String × Json) → Json
deriving Repr

mutual

/-- PostgreSQL jsonb containment, `body @> pat` (the operator used by
`search_refs_relaton_struct` at indexed.py line 42): every key of an object
pattern must be present in the body object with a recursively containing
value; every element of an array pattern must be contained in some element
of the body array; scalars must be equal.  (The PostgreSQL top-level
array-contains-scalar exception is not modelled: the Python signature only
passes dict or list patterns.) -/
def jsonb_contains : Json → Json → Bool
  | .obj bs, .obj ps => objContains bs ps
  | .arr bs, .arr ps => arrContains bs ps
  | .null, .null => true
  | .bool a, .bool b => a == b
  | .num a, .num b => a == b
  | .str a, .str b => a == b
  | _, _ => false
  termination_by a b => sizeOf a + sizeOf b
  decreasing_by all_goals (simp_wf <;> omega)

/-- Every field of the pattern object is matched by the body fields. -/
def objContains : List (String × Json) → List (String × Json) → Bool
  | _, [] => true
  | bs, (k, v) :: ps => objHas bs k v && objContains bs ps
  termination_by bs ps => sizeOf bs + sizeOf ps
  decreasing_by all_goals (simp_wf <;> omega)

/-- Some body field has the given key and a containing value. -/
def objHas : List (String × Json) → String → Json → Bool
  | [], _, _ => false
  | (k2, v2) :: bs, k, v => (k2 == k && jsonb_contains v2 v) || objHas bs k v
  termination_by bs _ v => sizeOf bs + sizeOf v
  decreasing_by all_goals (simp_wf <;> omega)

/-- Every element of the pattern array is contained in the body array. -/
def arrContains : List Json → List Json → Bool
  | _, [] => true
  | bs, p :: ps => arrHas bs p && arrContains bs ps
  termination_by bs ps => sizeOf bs + sizeOf ps
  decreasing_by all_goals (simp_wf <;> omega)

/-- Some element of the body array contains the pattern element. -/
def arrHas : List Json → Json → Bool
  | [], _ => false
  | b :: bs, p => jsonb_contains b p || arrHas bs p
  termination_by bs p => sizeOf bs + sizeOf p
  decreasing_by all_goals (simp_wf <;> omega)

end

/-- A row of the api_ref_data table (main/models.py RefData, as used by
indexed.py): dataset and ref are case-insensitive string keys, body is the
jsonb Relaton document, representations maps format names to pre-rendered
strings. -/
structure RefData where
  rid : Nat
  dataset : String
  ref : String
  body : Json
  representations : List (String × String)

/-- ASCII lower-casing of one character (the case folding relevant to the
identifiers of this development). -/
def lowerChar (c : Char) : Char :=
  if 65 ≤ c.toNat ∧ c.toNat ≤ 90 then Char.ofNat (c.toNat + 32) else c

/-- Lower-casing of a string, as SQL LOWER / Python str.lower on ASCII. -/
def pyLower (s : String) : String := ⟨s.data.map lowerChar⟩

/-- Case-insensitive string equality, Django `__iexact`. -/
def iexact (a b : String) : Bool := pyLower a == pyLower b

/-- indexed.py list_refs: RefDataManager.filter(dataset__iexact=dataset_id). -/
def list_refs (store : List RefData) (dataset_id : String) : List RefData :=
  store.filter (fun r => iexact r.dataset dataset_id)

/-- Python exceptions that the embedded functions can raise. -/
inductive PyError where
  | valueError : String → PyError
  | refNotFound : String → String → PyError
  | typeError : String → PyError
deriving Repr, DecidableEq

/-- The value of repr(Q) in Python at indexed.py lines 109, 113 and 125:
repr is applied to the imported class django.db.models.query.Q itself, not
to a query instance, so it is one constant string.  (The actual Python
text also carries quote characters around the dotted name.) -/
def reprQ : String := "<class django.db.models.query.Q>"

/-- Message of the TypeError Python raises when an except clause names an
exception instance instead of a class. -/
def catchInstanceMsg : String :=
  "catching classes that do not inherit from BaseException is not allowed"

/-- Successful result of get_indexed_ref_by_query: the raw Relaton body for
format relaton, a pre-rendered XML string for format bibxml. -/
inductive RefValue where
  | relaton : Json → RefValue
  | bibxml : String → RefValue

/-- Result of Django QuerySet.get(): the unique match, DoesNotExist, or
MultipleObjectsReturned. -/
inductive GetResult where
  | doesNotExist : GetResult
  | multipleObjectsReturned : GetResult
  | found : RefData → GetResult

/-- The records matched by `query & Q(dataset__iexact=dataset_id)`
(indexed.py lines 103-105). -/
def matching (store : List RefData) (dataset_id : String)
    (query : RefData → Bool) : List RefData :=
  store.filter (fun r => query r && iexact r.dataset dataset_id)

/-- Django RefDataManager.get on the combined query. -/
def qget (store : List RefData) (dataset_id : String)
    (query : RefData → Bool) : GetResult :=
  match matching store dataset_id query with
  | [] => .doesNotExist
  | [r] => .found r
  | _ :: _ :: _ => .multipleObjectsReturned

/-- Lookup in a string-to-string mapping, Python dict.get(k, None). -/
def dictGet (m : List (String × String)) (k : String) : Option String :=
  (m.find? (fun kv => kv.1 == k)).map (fun kv => kv.2)

/-- indexed.py get_indexed_ref_by_query.  Notes kept from the source:
the format check at lines 99-100 runs before the store is consulted;
on zero matches line 107 raises RefNotFoundError with repr(Q); on several
matches line 110 reads `except RefData.MultipleObjectsReturned():` — the
except clause names a freshly constructed exception *instance*, which
Python rejects with a TypeError when it tries to match the handler, so the
RefNotFoundError at lines 111-113 is never raised; for format bibxml the
truthiness test `if bibxml_repr:` at line 120 treats an empty string the
same as an absent representation. -/
def get_indexed_ref_by_query (store : List RefData) (dataset_id : String)
    (query : RefData → Bool) (format : String) : Except PyError RefValue :=
  if format ∉ ["relaton", "bibxml"] then
    .error (.valueError "Unknown citation format requested")
  else
    match qget store dataset_id query with
    | .doesNotExist =>
        .error (.refNotFound "Cannot find matching reference in given dataset" reprQ)
    | .multipleObjectsReturned =>
        .error (.typeError catchInstanceMsg)
    | .found r =>
        if format == "relaton" then
          .ok (.relaton r.body)
        else
          match dictGet r.representations "bibxml" with
          | some s =>
              if s != "" then
                .ok (.bibxml s)
              else
                .error (.refNotFound
                  "BibXML representation not found for requested reference" reprQ)
          | none =>
              .error (.refNotFound
                "BibXML representation not found for requested reference" reprQ)

/-- indexed.py get_indexed_ref: exact lookup via Q(ref__iexact=ref). -/
def get_indexed_ref (store : List RefData) (dataset_id ref : String)
    (format : String) : Except PyError RefValue :=
  get_indexed_ref_by_query store dataset_id (fun r => iexact r.ref ref) format

mutual

/-- Python json.dumps with default separators (escaping of special
characters inside strings is elided; no pattern in this development
contains any). -/
def Json.dumps : Json → String
  | .null => "null"
  | .bool b => cond b "true" "false"
  | .num n => toString n
  | .str s => "\"" ++ s ++ "\""
  | .arr es => "[" ++ Json.dumpsArr es ++ "]"
  | .obj fs => "\x7b" ++ Json.dumpsObj fs ++ "\x7d"
  termination_by j => sizeOf j
  decreasing_by all_goals (simp_wf <;> omega)

def Json.dumpsArr : List Json → String
  | [] => ""
  | [e] => Json.dumps e
  | e :: es => Json.dumps e ++ ", " ++ Json.dumpsArr es
  termination_by es => sizeOf es
  decreasing_by all_goals (simp_wf <;> omega)

def Json.dumpsObj : List (String × Json) → String
  | [] => ""
  | [(k, v)] => "\"" ++ k ++ "\": " ++ Json.dumps v
  | (k, v) :: fs => "\"" ++ k ++ "\": " ++ Json.dumps v ++ ", " ++ Json.dumpsObj fs
  termination_by fs => sizeOf fs
  decreasing_by all_goals (simp_wf <;> omega)

end

/-- PostgreSQL-side failure when a raw query is executed. -/
inductive SqlError where
  | syntaxError : String → SqlError

/-- What Django QuerySet.raw returns: the built SQL text, the bound
parameters, and the rows the database produces when the lazy query set is
finally evaluated. -/
structure RawQuerySet where
  query : String
  params : List String
  rows : Except SqlError (List RefData)

/-- The SQL text built at indexed.py lines 42-43:
one `body @> %s::jsonb` placeholder per pattern, joined with OR and
interpolated after WHERE. -/
def search_sql (objs : List Json) : String :=
  "SELECT * FROM api_ref_data WHERE " ++
    String.intercalate " OR " (objs.map (fun _ => "body @> %s::jsonb"))

/-- indexed.py search_refs_relaton_struct.  The bound parameters are the
json.dumps serializations of the patterns (line 46).  Row evaluation
models PostgreSQL: with at least one pattern the WHERE clause is the OR of
the containment tests; with zero patterns the clause is empty text, which
the SQL parser rejects, so evaluating the query set raises an error. -/
def search_refs_relaton_struct (store : List RefData)
    (objs : List Json) : RawQuerySet :=
  { query := search_sql objs
    params := objs.map Json.dumps
    rows :=
      match objs with
      | [] => .error (.syntaxError "syntax error at end of input")
      | _ :: _ =>
          .ok (store.filter (fun r => objs.any (fun o => jsonb_contains r.body o))) }

/-- Fields of a JSON object (empty for non-objects). -/
def objFields : Json → List (String × Json)
  | .obj fs => fs
  | _ => []

/-- Lookup of a key in a JSON object field list. -/
def jsonGet (fs : List (String × Json)) (k : String) : Option Json :=
  (fs.find? (fun kv => kv.1 == k)).map (fun kv => kv.2)

/-- The elements produced by the lax jsonpath `$.docid[*]` over a body:
the docid array elements, the docid value itself when it is not an array
(lax mode auto-wraps), nothing when the key or the object is missing. -/
def docidElems (body : Json) : List Json :=
  match body with
  | .obj fs =>
      match jsonGet fs "docid" with
      | some (.arr es) => es
      | some v => [v]
      | none => []
  | _ => []

/-- jsonb_array_elements_text on one value: SQL NULL for a JSON null,
text for scalars, JSON text for composites. -/
def Json.textValue : Json → Option String
  | .null => none
  | .bool b => some (cond b "true" "false")
  | .num n => some (toString n)
  | .str s => some s
  | .arr es => some (Json.dumps (.arr es))
  | .obj fs => some (Json.dumps (.obj fs))

/-- One docid element's contribution to `$.docid[*].type` followed by
jsonb_array_elements_text: nothing when the element is not an object or
lacks the key (lax mode), otherwise the text of the value. -/
def entryType (e : Json) : Option (Option String) :=
  match e with
  | .obj fs => (jsonGet fs "type").map Json.textValue
  | _ => none

def entryId (e : Json) : Option (Option String) :=
  match e with
  | .obj fs => (jsonGet fs "id").map Json.textValue
  | _ => none

/-- A (type, id) pairing literally present in one docid element, both as
strings. -/
def entryPair (e : Json) : Option (String × String) :=
  match e with
  | .obj fs =>
      match jsonGet fs "type", jsonGet fs "id" with
      | some (.str t), some (.str i) => some (t, i)
      | _, _ => none
  | _ => none

def docTypesOf (body : Json) : List (Option String) :=
  (docidElems body).filterMap entryType

def docIdsOf (body : Json) : List (Option String) :=
  (docidElems body).filterMap entryId

/-- All (type, id) string pairings in a body's docid array. -/
def docidPairs (body : Json) : List (String × String) :=
  (docidElems body).filterMap entryPair

/-- PostgreSQL evaluates two set-returning functions in one select list in
lockstep, padding the shorter output with NULL. -/
def zipPad : List (Option String) → List (Option String) →
    List (Option String × Option String)
  | [], ys => ys.map (fun y => (none, y))
  | x :: xs, [] => (x, none) :: zipPad xs []
  | x :: xs, y :: ys => (x, y) :: zipPad xs ys

/-- The rows of the inner subquery of list_doctypes (indexed.py lines
60-74): for each record, the zip of its `$.docid[*].type` texts with its
`$.docid[*].id` texts. -/
def doctypeRows (store : List RefData) : List (Option String × Option String) :=
  store.flatMap (fun r => zipPad (docTypesOf r.body) (docIdsOf r.body))

/-- `select distinct on (doctype) ...` without ORDER BY: one row kept per
doctype value (NULL forming its own group), the kept sample being whichever
row the scan meets first — the scan order is not specified by SQL, and the
model fixes it to row order. -/
def dedupeGo (seen : List (Option String)) :
    List (Option String × Option String) → List (Option String × Option String)
  | [] => []
  | (t, s) :: rest =>
      if t ∈ seen then dedupeGo seen rest
      else (t, s) :: dedupeGo (t :: seen) rest

/-- indexed.py list_doctypes: the distinct-on query over the zipped
doctype/sample rows, returned as (doctype, sample id) pairs.  (The
order_by on line 58 is discarded by Django when .raw() is used.) -/
def list_doctypes (store : List RefData) : List (Option String × Option String) :=
  dedupeGo [] (doctypeRows store)

/-- A titled-text entry of the bibliographic object model (spec section 3). -/
structure LocalizedString where
  content : String
  language : Option String
  script : Option String
  format : Option String
deriving Repr, DecidableEq

structure DocIdEntry where
  id : String
  type : String
deriving Repr, DecidableEq

structure BibDate where
  type : String
  value : String
deriving Repr, DecidableEq

structure BibLink where
  content : String
  type : Option String
deriving Repr, DecidableEq

structure Organization where
  name : String
deriving Repr, DecidableEq

structure PersonName where
  initial : List LocalizedString
  surname : Option LocalizedString
  completename : Option LocalizedString
deriving Repr, DecidableEq

structure Person where
  name : PersonName
deriving Repr, DecidableEq

/-- Contributor (spec section 3): a role string plus organization or
person, of which exactly one should be populated. -/
structure Contributor where
  organization : Option Organization
  person : Option Person
  role : Option String
deriving Repr, DecidableEq

mutual

/-- Bibliographic Item (spec section 3).  Recursive: each relation entry
is a (relation type, nested child item) pair.  The relation sequence is a
dedicated inductive so that the serializer below is plain mutual
structural recursion. -/
inductive BibliographicItem where
  | mk (id : Option String) (title : List LocalizedString)
      (docid : List DocIdEntry) (formattedref : Option LocalizedString)
      (contributor : List Contributor) (date : List BibDate)
      (relation : RelationList)
      (type : Option String) (docnumber : Option String)
      (link : List BibLink)

/-- The `relation[]` sequence: (relation type, nested child item) pairs. -/
inductive RelationList where
  | nil : RelationList
  | cons (rtype : String) (item : BibliographicItem) (rest : RelationList) : RelationList

end

def BibliographicItem.title : BibliographicItem → List LocalizedString
  | .mk _ t _ _ _ _ _ _ _ _ => t

def BibliographicItem.contributor : BibliographicItem → List Contributor
  | .mk _ _ _ _ c _ _ _ _ _ => c

def BibliographicItem.date : BibliographicItem → List BibDate
  | .mk _ _ _ _ _ d _ _ _ _ => d

def BibliographicItem.relation : BibliographicItem → RelationList
  | .mk _ _ _ _ _ _ rels _ _ _ => rels

/-- The relation sequence as a list of (type, nested item) pairs. -/
def RelationList.toList : RelationList → List (String × BibliographicItem)
  | .nil => []
  | .cons rt rb rest => (rt, rb) :: rest.toList

def RelationList.isEmpty : RelationList → Bool
  | .nil => true
  | .cons _ _ _ => false

/-- XML element trees: tag, attributes, children. -/
inductive Xml where
  | elem : String → List (String × String) → List Xml → Xml
  | text : String → Xml
deriving Repr

def Xml.tag : Xml → String
  | .elem t _ _ => t
  | .text _ => ""

/-- Modelled from the spec: the fixed role-name mapping table of
xml2rfc_compat/serializer.py (not under src), spec section 4.5 — author,
editor, publisher and the like; the tests exercise author and publisher. -/
def recognizedRoles : List String := ["author", "editor", "publisher"]

def orgXml (o : Organization) : Xml :=
  .elem "organization" [] [.text o.name]

def lsXml (tag : String) (s : LocalizedString) : Xml :=
  .elem tag [] [.text s.content]

def personXml (p : Person) : Xml :=
  .elem "person" []
    (p.name.initial.map (lsXml "initials") ++
      (p.name.surname.map (lsXml "surname")).toList ++
      (p.name.completename.map (lsXml "fullname")).toList)

/-- Modelled from the spec: create_author of xml2rfc_compat/serializer.py
is not under src; behaviour follows spec section 4.5 and the tests — a
missing or unrecognized role is rejected, a contributor with neither
organization nor person is rejected, otherwise an author element is
produced holding an organization or person subtree. -/
def create_author (c : Contributor) : Except PyError Xml :=
  match c.role with
  | none => .error (.valueError "Missing or incompatible role")
  | some r =>
      if recognizedRoles.contains r then
        match c.organization, c.person with
        | none, none => .error (.valueError "Missing person or organization")
        | some o, _ => .ok (.elem "author" [("role", r)] [orgXml o])
        | none, some p => .ok (.elem "author" [("role", r)] [personXml p])
      else .error (.valueError "Missing or incompatible role")

def titleXml (t : LocalizedString) : Xml :=
  .elem "title" [] [.text t.content]

def dateXml (d : BibDate) : Xml :=
  .elem "date" [("type", d.type), ("value", d.value)] []

/-- Author elements for all contributors, failing fast on the first
invalid one (spec section 4.5: each builder validates its own fields). -/
def authorsXml : List Contributor → Except PyError (List Xml)
  | [] => .ok []
  | c :: cs =>
      match create_author c with
      | .error e => .error e
      | .ok a =>
          match authorsXml cs with
          | .error e => .error e
          | .ok rest => .ok (a :: rest)

mutual

/-- Modelled from the spec: create_reference of
xml2rfc_compat/serializer.py is not under src.  Behaviour follows spec
section 4.5 as constrained by the tests in src/xml2rfc_compat/tests.py:
test_fail_create_reference_if_missing_titles removes only the title of an
item whose relation list is non-empty (and whose nested item is titled)
and expects a ValueError, so create_reference itself requires a non-empty
title list; with titles present it emits a reference element with title,
author and date children plus one recursively built child reference per
relation entry. -/
def create_reference : BibliographicItem → Except PyError Xml
  | .mk _ t _ _ c dt rels _ _ _ =>
      if t.isEmpty then .error (.valueError "Missing titles")
      else
        match authorsXml c with
        | .error e => .error e
        | .ok authors =>
            match relationChildren rels with
            | .error e => .error e
            | .ok children =>
                .ok (.elem "reference" []
                  (t.map titleXml ++ authors ++ dt.map dateXml ++ children))

def relationChildren : RelationList → Except PyError (List Xml)
  | .nil => .ok []
  | .cons _ rb rest =>
      match create_reference rb with
      | .error e => .error e
      | .ok x =>
          match relationChildren rest with
          | .error e => .error e
          | .ok xs => .ok (x :: xs)

end

/-- Modelled from the spec: to_xml of xml2rfc_compat/serializer.py is not
under src.  Spec section 4.5: when both title and relation are empty it
fails with the missing-titles-and-relations ValidationError
(test_fail_bibliographicitem_to_xml_if_wrong_combination_of_titles_and_relations);
with titles present it serializes the item itself; with only relations it
falls back to the first relation's nested item. -/
def to_xml (item : BibliographicItem) : Except PyError Xml :=
  match item.title, item.relation with
  | [], .nil => .error (.valueError "Missing titles and relations")
  | _ :: _, _ => create_reference item
  | [], .cons _ rb _ => create_reference rb

/-! ## Theorems about the reference resolver -/

/-- Any RefNotFoundError coming out of get_indexed_ref_by_query carries the
constant repr(Q) payload. -/
theorem refNotFound_payload (store : List RefData) (dataset_id : String)
    (query : RefData → Bool) (format m qr : String)
    (h : get_indexed_ref_by_query store dataset_id query format
      = .error (.refNotFound m qr)) : qr = reprQ := by
  unfold get_indexed_ref_by_query at h
  repeat' split at h
  all_goals simp_all

/-- C4: for every format value other than relaton and bibxml,
get_indexed_ref_by_query fails with the unknown-citation-format ValueError,
and the outcome does not depend on the store, the dataset id or the
predicate — the record store is never consulted. -/
theorem c4_invalid_format_rejected_before_query
    (format : String) (hf : format ∉ ["relaton", "bibxml"])
    (store1 store2 : List RefData) (d1 d2 : String)
    (q1 q2 : RefData → Bool) :
    get_indexed_ref_by_query store1 d1 q1 format
      = .error (.valueError "Unknown citation format requested") ∧
    get_indexed_ref_by_query store1 d1 q1 format
      = get_indexed_ref_by_query store2 d2 q2 format := by
  unfold get_indexed_ref_by_query
  rw [if_pos hf]
  exact ⟨rfl, (if_pos hf).symm⟩

theorem c4_invalid_format_witness :
    "xyz" ∉ ["relaton", "bibxml"] ∧
    get_indexed_ref_by_query ([] : List RefData) "ietf" (fun _ => true) "xyz"
      = .error (.valueError "Unknown citation format requested") :=
  ⟨by decide,
    (c4_invalid_format_rejected_before_query "xyz" (by decide)
      [] [] "ietf" "ietf" (fun _ => true) (fun _ => true)).1⟩

/-- C2: when exactly one record matches the predicate combined with the
case-insensitive dataset filter, resolving with format relaton returns that
record's body unchanged, both through get_indexed_ref_by_query and through
the exact-ref wrapper get_indexed_ref. -/
theorem c2_relaton_identity (store : List RefData) (dataset_id ref : String)
    (query : RefData → Bool) (r : RefData) :
    (matching store dataset_id query = [r] →
      get_indexed_ref_by_query store dataset_id query "relaton"
        = .ok (.relaton r.body)) ∧
    (matching store dataset_id (fun x => iexact x.ref ref) = [r] →
      get_indexed_ref store dataset_id ref "relaton" = .ok (.relaton r.body)) := by
  have main : ∀ q : RefData → Bool, matching store dataset_id q = [r] →
      get_indexed_ref_by_query store dataset_id q "relaton"
        = .ok (.relaton r.body) := by
    intro q h
    simp [get_indexed_ref_by_query, qget, h]
  exact ⟨main query, main (fun x => iexact x.ref ref)⟩

def c2rec : RefData :=
  ⟨1, "IETF", "rfc10", .obj [("id", .str "RFC10")], []⟩

theorem c2_relaton_identity_witness :
    matching [c2rec] "ietf" (fun x => iexact x.ref "RFC10") = [c2rec] ∧
    get_indexed_ref [c2rec] "ietf" "RFC10" "relaton"
      = .ok (.relaton c2rec.body) :=
  ⟨by rfl,
    (c2_relaton_identity [c2rec] "ietf" "RFC10"
      (fun x => iexact x.ref "RFC10") c2rec).2 (by rfl)⟩

/-- C3 (amended): for a uniquely matched record and format bibxml, the
resolver fails with the representation-not-found RefNotFoundError when the
bibxml entry is absent or maps to the empty string (the code tests the
looked-up value for Python truthiness, not for presence), and returns the
stored string when a non-empty entry is present. -/
theorem c3_bibxml_representation (store : List RefData) (dataset_id : String)
    (query : RefData → Bool) (r : RefData)
    (h : matching store dataset_id query = [r]) :
    ((dictGet r.representations "bibxml" = none ∨
        dictGet r.representations "bibxml" = some "") →
      get_indexed_ref_by_query store dataset_id query "bibxml"
        = .error (.refNotFound
            "BibXML representation not found for requested reference" reprQ)) ∧
    (∀ s, dictGet r.representations "bibxml" = some s → s ≠ "" →
      get_indexed_ref_by_query store dataset_id query "bibxml"
        = .ok (.bibxml s)) := by
  constructor
  · rintro (hre | hre) <;> simp [get_indexed_ref_by_query, qget, h, hre]
  · intro s hs hne
    simp [get_indexed_ref_by_query, qget, h, hs, hne]

def c3rec : RefData := ⟨1, "ds", "r1", .obj [], [("bibxml", "")]⟩

/-- C3 counterexample: the record is uniquely matched and its
representations mapping does have a bibxml entry, yet the resolver fails
with the not-found error because the stored string is empty and the code
checks truthiness rather than presence. -/
theorem c3_counterexample :
    dictGet c3rec.representations "bibxml" = some "" ∧
    get_indexed_ref [c3rec] "ds" "r1" "bibxml"
      = .error (.refNotFound
          "BibXML representation not found for requested reference" reprQ) :=
  ⟨rfl, rfl⟩

def c3wrec : RefData := ⟨1, "ds", "r1", .obj [], [("bibxml", "<reference/>")]⟩

theorem c3_bibxml_representation_witness :
    matching [c3wrec] "ds" (fun x => iexact x.ref "r1") = [c3wrec] ∧
    dictGet c3wrec.representations "bibxml" = some "<reference/>" ∧
    get_indexed_ref_by_query [c3wrec] "ds" (fun x => iexact x.ref "r1") "bibxml"
      = .ok (.bibxml "<reference/>") :=
  ⟨by rfl, rfl,
    (c3_bibxml_representation [c3wrec] "ds" (fun x => iexact x.ref "r1")
      c3wrec (by rfl)).2 "<reference/>" rfl (by decide)⟩

def c1reca : RefData := ⟨1, "ds", "r1", .obj [], []⟩
def c1recb : RefData := ⟨2, "DS", "r2", .obj [], []⟩

/-- C1 at its failing input: with zero matches the resolver raises
RefNotFoundError as the claim says, but with two records matching the
predicate and the case-insensitive dataset filter it raises a TypeError —
the except clause at indexed.py line 110 names a constructed exception
instance, `RefData.MultipleObjectsReturned()`, so Python rejects the
handler instead of raising the intended second RefNotFoundError, and even
that intended error would have been the same class as the zero-match one,
not a distinct AmbiguousReference error. -/
theorem c1_zero_and_multi_match :
    get_indexed_ref_by_query ([] : List RefData) "ds" (fun _ => true) "relaton"
      = .error (.refNotFound
          "Cannot find matching reference in given dataset" reprQ) ∧
    get_indexed_ref_by_query [c1reca, c1recb] "ds" (fun _ => true) "relaton"
      = .error (.typeError catchInstanceMsg) :=
  ⟨rfl, rfl⟩

/-- C9: whenever get_indexed_ref_by_query fails with its not-found or
not-represented error, the query-representation payload is the constant
repr applied to the Q class itself, so any two failing calls — whatever
their stores, dataset ids, predicates or formats — carry identical
payloads and the failing query cannot be recovered from the error. -/
theorem c9_query_repr_constant (store1 store2 : List RefData) (d1 d2 : String)
    (q1 q2 : RefData → Bool) (f1 f2 m1 m2 qr1 qr2 : String)
    (h1 : get_indexed_ref_by_query store1 d1 q1 f1
      = .error (.refNotFound m1 qr1))
    (h2 : get_indexed_ref_by_query store2 d2 q2 f2
      = .error (.refNotFound m2 qr2)) :
    qr1 = reprQ ∧ qr2 = reprQ ∧ qr1 = qr2 := by
  have e1 := refNotFound_payload store1 d1 q1 f1 m1 qr1 h1
  have e2 := refNotFound_payload store2 d2 q2 f2 m2 qr2 h2
  exact ⟨e1, e2, e1.trans e2.symm⟩

def c9rec : RefData := ⟨7, "rfcs", "r9", .obj [], [("bibxml", "")]⟩

theorem c9_query_repr_constant_witness :
    (get_indexed_ref_by_query ([] : List RefData) "ietf" (fun _ => true) "relaton"
      = .error (.refNotFound
          "Cannot find matching reference in given dataset" reprQ)) ∧
    (get_indexed_ref_by_query [c9rec] "rfcs" (fun x => iexact x.ref "r9") "bibxml"
      = .error (.refNotFound
          "BibXML representation not found for requested reference" reprQ)) ∧
    (reprQ = reprQ ∧ reprQ = reprQ ∧ reprQ = reprQ) :=
  ⟨rfl, rfl,
    c9_query_repr_constant [] [c9rec] "ietf" "rfcs" (fun _ => true)
      (fun x => iexact x.ref "r9") "relaton" "bibxml"
      "Cannot find matching reference in given dataset"
      "BibXML representation not found for requested reference"
      reprQ reprQ rfl rfl⟩

/-! ## Theorems about the structural search -/

/-- C5: with at least one pattern document, evaluating the query set built
by search_refs_relaton_struct succeeds and returns exactly the records
whose body jsonb-contains at least one of the patterns (OR semantics
across patterns); consequently, for any two patterns, the rows of the
two-pattern search are exactly the union of the rows of the two
single-pattern searches. -/
theorem c5_search_struct_or_semantics (store : List RefData)
    (objs : List Json) (h : objs ≠ []) :
    (∃ l, (search_refs_relaton_struct store objs).rows = .ok l ∧
      ∀ r : RefData, r ∈ l ↔
        r ∈ store ∧ ∃ o ∈ objs, jsonb_contains r.body o = true) ∧
    (∀ o1 o2 : Json, ∃ l1 l2 l12,
      (search_refs_relaton_struct store [o1]).rows = .ok l1 ∧
      (search_refs_relaton_struct store [o2]).rows = .ok l2 ∧
      (search_refs_relaton_struct store [o1, o2]).rows = .ok l12 ∧
      ∀ r : RefData, r ∈ l12 ↔ (r ∈ l1 ∨ r ∈ l2)) := by
  constructor
  · match objs, h with
    | o :: os, _ =>
        refine ⟨_, rfl, ?_⟩
        intro r
        simp [List.mem_filter]
  · intro o1 o2
    refine ⟨_, _, _, rfl, rfl, rfl, ?_⟩
    intro r
    simp [List.mem_filter]
    tauto

def c5rec : RefData :=
  ⟨1, "ds", "r1",
    .obj [("docid", .arr [.obj [("type", .str "RFC"), ("id", .str "RFC1")]])],
    []⟩

def c5pat : Json := .obj [("docid", .arr [.obj [("type", .str "RFC")]])]

theorem c5_search_struct_witness :
    ([c5pat] ≠ ([] : List Json)) ∧
    ((∃ l, (search_refs_relaton_struct [c5rec] [c5pat]).rows = .ok l ∧
      ∀ r : RefData, r ∈ l ↔
        r ∈ [c5rec] ∧ ∃ o ∈ [c5pat], jsonb_contains r.body o = true) ∧
    (∀ o1 o2 : Json, ∃ l1 l2 l12,
      (search_refs_relaton_struct [c5rec] [o1]).rows = .ok l1 ∧
      (search_refs_relaton_struct [c5rec] [o2]).rows = .ok l2 ∧
      (search_refs_relaton_struct [c5rec] [o1, o2]).rows = .ok l12 ∧
      ∀ r : RefData, r ∈ l12 ↔ (r ∈ l1 ∨ r ∈ l2))) :=
  ⟨by simp, c5_search_struct_or_semantics [c5rec] [c5pat] (by simp)⟩

/-- C10: with zero pattern documents the OR-join is empty, so the built
statement is exactly the text ending in an empty WHERE clause, the bound
parameter list is empty, and evaluating the returned query set produces a
database error instead of any (empty or not) result set. -/
theorem c10_empty_pattern_invalid_sql (store : List RefData) :
    (search_refs_relaton_struct store []).query
      = "SELECT * FROM api_ref_data WHERE " ∧
    (search_refs_relaton_struct store []).params = [] ∧
    ∃ e, (search_refs_relaton_struct store []).rows = .error e :=
  ⟨rfl, rfl, ⟨_, rfl⟩⟩

/-! ## Theorems about the doctype sampler -/

/-- A docid element whose type and id fields are both present as strings:
the situation in which the two set-returning functions of the list_doctypes
query stay aligned. -/
def docidEntryAligned : Json → Bool
  | .obj fs =>
      (match jsonGet fs "type" with | some (.str _) => true | _ => false) &&
      (match jsonGet fs "id" with | some (.str _) => true | _ => false)
  | _ => false

def bodyAligned (body : Json) : Bool :=
  (docidElems body).all docidEntryAligned

theorem aligned_entry (e : Json) (he : docidEntryAligned e = true) :
    ∃ t i : String, entryType e = some (some t) ∧ entryId e = some (some i) ∧
      entryPair e = some (t, i) := by
  cases e with
  | obj fs =>
      rw [docidEntryAligned, Bool.and_eq_true] at he
      obtain ⟨h1, h2⟩ := he
      split at h1
      case _ t heq1 =>
        split at h2
        case _ i heq2 =>
          exact ⟨t, i, by simp [entryType, heq1, Json.textValue],
            by simp [entryId, heq2, Json.textValue],
            by simp [entryPair, heq1, heq2]⟩
        case _ => exact absurd h2 (by simp)
      case _ => exact absurd h1 (by simp)
  | null => exact absurd he (by simp [docidEntryAligned])
  | bool b => exact absurd he (by simp [docidEntryAligned])
  | num n => exact absurd he (by simp [docidEntryAligned])
  | str s => exact absurd he (by simp [docidEntryAligned])
  | arr es => exact absurd he (by simp [docidEntryAligned])

theorem zipPad_aligned (es : List Json)
    (h : es.all docidEntryAligned = true) :
    zipPad (es.filterMap entryType) (es.filterMap entryId)
      = (es.filterMap entryPair).map (fun p => (some p.1, some p.2)) := by
  induction es with
  | nil => rfl
  | cons e rest ih =>
      rw [List.all_cons, Bool.and_eq_true] at h
      obtain ⟨t, i, e1, e2, e3⟩ := aligned_entry e h.1
      simp [List.filterMap_cons, e1, e2, e3, zipPad, ih h.2]

theorem doctypeRows_aligned (store : List RefData)
    (h : ∀ r ∈ store, bodyAligned r.body = true) :
    doctypeRows store
      = store.flatMap
          (fun r => (docidPairs r.body).map (fun p => (some p.1, some p.2))) := by
  induction store with
  | nil => rfl
  | cons r rest ih =>
      rw [doctypeRows, List.flatMap_cons, ← doctypeRows,
        ih (fun x hx => h x (List.mem_cons_of_mem r hx)), List.flatMap_cons]
      rw [docTypesOf, docIdsOf, docidPairs,
        zipPad_aligned (docidElems r.body) (h r (List.mem_cons_self r rest))]

theorem dedupeGo_subset (l : List (Option String × Option String)) :
    ∀ seen row, row ∈ dedupeGo seen l → row ∈ l := by
  induction l with
  | nil => intro seen row h; simpa [dedupeGo] using h
  | cons hd tl ih =>
      intro seen row h
      obtain ⟨t, s⟩ := hd
      rw [dedupeGo] at h
      split at h
      · exact List.mem_cons_of_mem _ (ih seen row h)
      · rcases List.mem_cons.1 h with h | h
        · exact h ▸ List.mem_cons_self _ _
        · exact List.mem_cons_of_mem _ (ih _ row h)

theorem dedupeGo_complete (l : List (Option String × Option String)) :
    ∀ seen t s, (t, s) ∈ l → t ∉ seen →
      ∃ s2, (t, s2) ∈ dedupeGo seen l := by
  induction l with
  | nil => intro seen t s h; exact absurd h (by simp)
  | cons hd tl ih =>
      intro seen t s h hseen
      obtain ⟨t0, s0⟩ := hd
      rw [dedupeGo]
      split
      case _ hmem =>
        rcases List.mem_cons.1 h with h | h
        · rw [Prod.mk.injEq] at h
          obtain ⟨rfl, rfl⟩ := h
          exact absurd hmem hseen
        · exact ih seen t s h hseen
      case _ hmem =>
        rcases List.mem_cons.1 h with h | h
        · rw [Prod.mk.injEq] at h
          obtain ⟨rfl, rfl⟩ := h
          exact ⟨_, List.mem_cons_self _ _⟩
        · by_cases ht : t = t0
          · exact ⟨s0, ht ▸ List.mem_cons_self _ _⟩
          · obtain ⟨s2, hs2⟩ := ih (t0 :: seen) t s h
              (by simp [ht, hseen])
            exact ⟨s2, List.mem_cons_of_mem _ hs2⟩

theorem dedupeGo_distinct (l : List (Option String × Option String)) :
    ∀ seen, (∀ row ∈ dedupeGo seen l, row.1 ∉ seen) ∧
      (dedupeGo seen l).Pairwise (fun a b => a.1 ≠ b.1) := by
  induction l with
  | nil => intro seen; simp [dedupeGo]
  | cons hd tl ih =>
      intro seen
      obtain ⟨t, s⟩ := hd
      rw [dedupeGo]
      split
      · exact ih seen
      case _ hmem =>
        constructor
        · intro row hrow
          rcases List.mem_cons.1 hrow with h | h
          · exact h ▸ hmem
          · exact fun hc => (ih (t :: seen)).1 row h (List.mem_cons_of_mem _ hc)
        · refine List.pairwise_cons.2 ⟨?_, (ih (t :: seen)).2⟩
          intro b hb
          have := (ih (t :: seen)).1 b hb
          simp only [List.mem_cons, not_or] at this
          exact fun hc => this.1 hc.symm

/-- C6 (amended): provided every docid entry of every record carries both
a type and an id as strings — so that the two set-returning functions of
the query stay aligned — list_doctypes returns one pair per distinct type
value: every returned pair is a (type, sampleId) pairing present in some
record's docid, every type occurring in some record appears in the output,
and no two output entries share a doctype. -/
theorem c6_doctypes_aligned (store : List RefData)
    (h : ∀ r ∈ store, bodyAligned r.body = true) :
    (∀ row ∈ list_doctypes store, ∃ t s, row = (some t, some s) ∧
      ∃ r ∈ store, (t, s) ∈ docidPairs r.body) ∧
    (∀ r ∈ store, ∀ t i, (t, i) ∈ docidPairs r.body →
      ∃ s, (some t, some s) ∈ list_doctypes store) ∧
    (list_doctypes store).Pairwise (fun a b => a.1 ≠ b.1) := by
  have hrows := doctypeRows_aligned store h
  have validity : ∀ row ∈ list_doctypes store, ∃ t s, row = (some t, some s) ∧
      ∃ r ∈ store, (t, s) ∈ docidPairs r.body := by
    intro row hrow
    have hmem := dedupeGo_subset (doctypeRows store) [] row hrow
    rw [hrows] at hmem
    obtain ⟨r, hr, hp⟩ := List.mem_flatMap.1 hmem
    obtain ⟨p, hp1, hp2⟩ := List.mem_map.1 hp
    exact ⟨p.1, p.2, hp2.symm, r, hr, hp1⟩
  refine ⟨validity, ?_, (dedupeGo_distinct (doctypeRows store) []).2⟩
  intro r hr t i hti
  have hmem : ((some t : Option String), (some i : Option String))
      ∈ doctypeRows store := by
    rw [hrows]
    exact List.mem_flatMap.2 ⟨r, hr, List.mem_map.2 ⟨(t, i), hti, rfl⟩⟩
  obtain ⟨s2, hs2⟩ := dedupeGo_complete (doctypeRows store) [] (some t) (some i)
    hmem (by simp)
  obtain ⟨t3, s3, heq, -⟩ := validity _ hs2
  rw [Prod.mk.injEq] at heq
  obtain ⟨-, h2⟩ := heq
  rw [h2] at hs2
  exact ⟨s3, hs2⟩

def c6body : Json :=
  .obj [("docid", .arr [.obj [("id", .str "X")],
    .obj [("type", .str "RFC"), ("id", .str "Y")]])]

def c6store : List RefData := [⟨1, "ds", "r1", c6body, []⟩]

/-- C6 counterexample: one record whose docid holds an id-only entry and a
complete (RFC, Y) entry.  The query collects types = [RFC] and
ids = [X, Y], zips them in lockstep, and returns the pairing (RFC, X) —
which occurs in no record's docid — plus an extra NULL-doctype row, so the
returned sampleId is not valid in the claimed sense. -/
theorem c6_counterexample :
    list_doctypes c6store = [(some "RFC", some "X"), (none, some "Y")] ∧
    (∀ r ∈ c6store, ("RFC", "X") ∉ docidPairs r.body) :=
  ⟨by decide, by decide⟩

def c6wbody : Json :=
  .obj [("docid", .arr [.obj [("type", .str "RFC"), ("id", .str "RFC1")]])]

def c6wstore : List RefData := [⟨1, "ds", "r1", c6wbody, []⟩]

theorem c6_doctypes_aligned_witness :
    (∀ r ∈ c6wstore, bodyAligned r.body = true) ∧
    ((∀ row ∈ list_doctypes c6wstore, ∃ t s, row = (some t, some s) ∧
      ∃ r ∈ c6wstore, (t, s) ∈ docidPairs r.body) ∧
    (∀ r ∈ c6wstore, ∀ t i, (t, i) ∈ docidPairs r.body →
      ∃ s, (some t, some s) ∈ list_doctypes c6wstore) ∧
    (list_doctypes c6wstore).Pairwise (fun a b => a.1 ≠ b.1)) :=
  ⟨by decide, c6_doctypes_aligned c6wstore (by decide)⟩

/-! ## Theorems about the XML serializer -/

theorem except_isOk_exists {ε α : Type} (e : Except ε α)
    (h : e.isOk = true) : ∃ a, e = .ok a := by
  cases e with
  | error _ => exact absurd h (by simp [Except.isOk, Except.toBool])
  | ok a => exact ⟨a, rfl⟩

theorem authorsXml_ok (cs : List Contributor)
    (h : ∀ c ∈ cs, (create_author c).isOk = true) :
    ∃ l, authorsXml cs = .ok l := by
  induction cs with
  | nil => exact ⟨[], rfl⟩
  | cons c rest ih =>
      obtain ⟨a, ha⟩ := except_isOk_exists _ (h c (List.mem_cons_self c rest))
      obtain ⟨l, hl⟩ := ih (fun x hx => h x (List.mem_cons_of_mem c hx))
      exact ⟨a :: l, by rw [authorsXml, ha, hl]⟩

theorem relationChildren_ok : ∀ rels : RelationList,
    (∀ p ∈ rels.toList, (create_reference p.2).isOk = true) →
    ∃ l, relationChildren rels = .ok l
  | .nil, _ => ⟨[], rfl⟩
  | .cons rt rb rest, h => by
      obtain ⟨x, hx⟩ := except_isOk_exists _
        (h (rt, rb) (by simp [RelationList.toList]))
      obtain ⟨xs, hxs⟩ := relationChildren_ok rest
        (fun p hp => h p (by simp [RelationList.toList, hp]))
      exact ⟨x :: xs, by rw [relationChildren, hx, hxs]⟩

/-- C7 (amended): create_reference fails with the missing-titles
ValidationError whenever the title sequence is empty — even when the
relation sequence is non-empty — and succeeds with a reference-rooted
element whenever the title sequence is non-empty and the item's
contributors and relation children are themselves serializable; the
both-title-and-relation-empty ValidationError belongs to the to_xml entry
point, which with an empty title falls back to a relation's nested item. -/
theorem c7_reference_requires_titles (item : BibliographicItem) :
    (item.title = [] →
      create_reference item = .error (.valueError "Missing titles")) ∧
    (item.title = [] → item.relation = .nil →
      to_xml item = .error (.valueError "Missing titles and relations")) ∧
    (item.title ≠ [] →
      (∀ c ∈ item.contributor, (create_author c).isOk = true) →
      (∀ p ∈ item.relation.toList, (create_reference p.2).isOk = true) →
      ∃ children, create_reference item
        = .ok (.elem "reference" [] children)) := by
  obtain ⟨i, t, d, fr, c, dt, rels, ty, dn, lk⟩ := item
  refine ⟨?_, ?_, ?_⟩
  · intro h
    simp only [BibliographicItem.title] at h
    subst h
    rfl
  · intro h1 h2
    simp only [BibliographicItem.title] at h1
    simp only [BibliographicItem.relation] at h2
    subst h1; subst h2
    rfl
  · intro ht hc hr
    simp only [BibliographicItem.title] at ht
    simp only [BibliographicItem.contributor] at hc
    simp only [BibliographicItem.relation] at hr
    obtain ⟨authors, ha⟩ := authorsXml_ok c hc
    obtain ⟨children, hch⟩ := relationChildren_ok rels hr
    cases t with
    | nil => exact absurd rfl ht
    | cons t0 ts =>
        exact ⟨_, by rw [create_reference, ha, hch]; rfl⟩

def c7nested : BibliographicItem :=
  .mk (some "test_id")
    [⟨"title", some "en", some "Latn", some "text / plain"⟩]
    [⟨"RFC1917", "RFC"⟩] none [] [⟨"published", "1996-02"⟩] .nil
    (some "standard") (some "RFC1917")
    [⟨"https://example.org/reference.RFC.1917.xml", some "xml"⟩]

def c7org : Contributor :=
  ⟨some ⟨"Internet Engineering Task Force"⟩, none, some "publisher"⟩

/-- The test fixture bibitem_data with its title removed and its relation
kept, as built by test_fail_create_reference_if_missing_titles. -/
def c7untitled : BibliographicItem :=
  .mk (some "ref_01") [] [⟨"ref_01", "test_dataset_01"⟩]
    (some ⟨"BCP4", some "en", some "Latn", some "text/plain"⟩)
    [c7org] [⟨"published", "1996-02"⟩]
    (.cons "includes" c7nested .nil) none none []

/-- C7 counterexample, following the repository test
test_fail_create_reference_if_missing_titles: an item whose relation
sequence is non-empty (and whose nested item is titled and serializable)
but whose title sequence is empty makes create_reference fail, although
the claim says one non-empty sequence of the two suffices for success. -/
theorem c7_counterexample :
    c7untitled.relation.isEmpty = false ∧
    (∀ p ∈ c7untitled.relation.toList, (create_reference p.2).isOk = true) ∧
    create_reference c7untitled = .error (.valueError "Missing titles") :=
  ⟨rfl, by decide, rfl⟩

/-- The full test fixture bibitem_data (titles, one organization
contributor, one relation with a nested titled item). -/
def c7full : BibliographicItem :=
  .mk (some "ref_01")
    [⟨"title", some "en", some "Latn", some "text / plain"⟩]
    [⟨"ref_01", "test_dataset_01"⟩]
    (some ⟨"BCP4", some "en", some "Latn", some "text/plain"⟩)
    [c7org] [⟨"published", "1996-02"⟩]
    (.cons "includes" c7nested .nil) none none []

theorem c7_reference_requires_titles_witness :
    (c7full.title ≠ []) ∧
    (∀ c ∈ c7full.contributor, (create_author c).isOk = true) ∧
    (∀ p ∈ c7full.relation.toList, (create_reference p.2).isOk = true) ∧
    (∃ children, create_reference c7full
      = .ok (.elem "reference" [] children)) :=
  ⟨by decide, by decide, by decide,
    (c7_reference_requires_titles c7full).2.2 (by decide) (by decide) (by decide)⟩

/-- C8: create_author rejects a contributor whose role is missing or not a
recognized role string, rejects one with neither organization nor person,
and for a recognized role with exactly one of the two populated it
produces an author element holding an organization subtree when the
organization is set and a person subtree when the person is set. -/
theorem c8_author_validation (c : Contributor) :
    (c.role = none →
      create_author c = .error (.valueError "Missing or incompatible role")) ∧
    (∀ r, c.role = some r → recognizedRoles.contains r = false →
      create_author c = .error (.valueError "Missing or incompatible role")) ∧
    (∀ r, c.role = some r → recognizedRoles.contains r = true →
      c.organization = none → c.person = none →
      create_author c = .error (.valueError "Missing person or organization")) ∧
    (∀ r o, c.role = some r → recognizedRoles.contains r = true →
      c.organization = some o → c.person = none →
      create_author c = .ok (.elem "author" [("role", r)] [orgXml o])) ∧
    (∀ r p, c.role = some r → recognizedRoles.contains r = true →
      c.organization = none → c.person = some p →
      create_author c = .ok (.elem "author" [("role", r)] [personXml p])) := by
  obtain ⟨org, per, role⟩ := c
  refine ⟨?_, ?_, ?_, ?_, ?_⟩
  · intro h
    simp only at h
    subst h
    rfl
  · intro r h hr
    simp only at h
    subst h
    have hm : r ∉ recognizedRoles := by simpa using hr
    simp [create_author, hm]
  · intro r h hr h1 h2
    simp only at h h1 h2
    subst h; subst h1; subst h2
    have hm : r ∈ recognizedRoles := by simpa using hr
    simp [create_author, hm]
  · intro r o h hr h1 h2
    simp only at h h1 h2
    subst h; subst h1; subst h2
    have hm : r ∈ recognizedRoles := by simpa using hr
    simp [create_author, hm]
  · intro r p h hr h1 h2
    simp only at h h1 h2
    subst h; subst h1; subst h2
    have hm : r ∈ recognizedRoles := by simpa using hr
    simp [create_author, hm]

def c8person : Person :=
  ⟨⟨[⟨"Mr", some "en", none, none⟩],
    some ⟨"Cerf", some "en", none, none⟩,
    some ⟨"Mr Cerf", some "en", none, none⟩⟩⟩

def c8personContrib : Contributor := ⟨none, some c8person, some "author"⟩

def c8noRole : Contributor := ⟨some ⟨"Internet Engineering Task Force"⟩, none, none⟩

def c8nobody : Contributor := ⟨none, none, some "author"⟩

theorem c8_author_validation_witness :
    (c8noRole.role = none ∧
      create_author c8noRole
        = .error (.valueError "Missing or incompatible role")) ∧
    (c8nobody.role = some "author" ∧ recognizedRoles.contains "author" = true ∧
      c8nobody.organization = none ∧ c8nobody.person = none ∧
      create_author c8nobody
        = .error (.valueError "Missing person or organization")) ∧
    (c7org.role = some "publisher" ∧
      recognizedRoles.contains "publisher" = true ∧
      c7org.organization = some ⟨"Internet Engineering Task Force"⟩ ∧
      c7org.person = none ∧
      create_author c7org = .ok (.elem "author" [("role", "publisher")]
        [orgXml ⟨"Internet Engineering Task Force"⟩])) ∧
    (c8personContrib.role = some "author" ∧
      recognizedRoles.contains "author" = true ∧
      c8personContrib.organization = none ∧
      c8personContrib.person = some c8person ∧
      create_author c8personContrib
        = .ok (.elem "author" [("role", "author")] [personXml c8person])) :=
  ⟨⟨rfl, (c8_author_validation c8noRole).1 rfl⟩,
    ⟨rfl, rfl, rfl, rfl,
      (c8_author_validation c8nobody).2.2.1 "author" rfl rfl rfl rfl⟩,
    ⟨rfl, rfl, rfl, rfl,
      (c8_author_validation c7org).2.2.2.1 "publisher"
        ⟨"Internet Engineering Task Force"⟩ rfl rfl rfl rfl⟩,
    ⟨rfl, rfl, rfl, rfl,
      (c8_author_validation c8personContrib).2.2.2.2 "author" c8person
        rfl rfl rfl rfl⟩⟩

end Bibxml
